import Mathlib

/-!
# WVL site backend: gallery and project controllers

A shallow embedding of `controllers/galleryController.js`,
`controllers/projectController.js`, `config/uploadConfig.js` and the two
schemas under `models/`.  Every handler is a function from the state of the
world (disk, database, effect log) and a request to the new state and the
response that was sent.

External collaborators are modelled by their documented behaviour:

* `sharp` is an oracle `World.sharp` from a path to the transcoded bytes
  (`none` when the pipeline throws); it can only read a file that is on disk.
* `fs` is the list of paths that exist; `unlinkSync` throws on a missing path.
* Mongoose collections are lists of documents in insertion order.  `save`
  runs the schema validators (`required`, `min`, `max`) and the `trim`
  setters; `findByIdAndUpdate` casts and applies the supplied fields and runs
  validators only when the option `runValidators` is set.
* JavaScript `Number` is modelled by `Int` (only comparisons are used), bytes
  by `Nat`, identifiers by `Nat`.
* The text parts of a project request body are the eight scalar fields of the
  schema, already cast, plus the remaining parts by name.  Parts named
  `beforePhoto` or `afterPhoto` replace the stored photo under `$set`; how
  Mongoose casts any other name is the oracle `World.castOther`.
-/

namespace WVL

/-! ## Data model -/

/-- Bytes of a Node `Buffer`. -/
abbrev Buffer := List Nat

/-- Nested path `{ data: Buffer, contentType: String }` of both schemas. -/
structure ImageAsset where
  data : Option Buffer
  contentType : Option String
deriving DecidableEq, Repr

/-- Document of `gallerySchema` (`timestamps: true`). -/
structure GalleryDoc where
  id : Nat
  title : Option String
  description : Option String
  image : Option ImageAsset
  createdAt : Nat
  updatedAt : Nat
deriving DecidableEq, Repr

/-- Document of `projectSchema` (`timestamps: true`). -/
structure ProjectDoc where
  id : Nat
  nationalId : Option String
  name : Option String
  project : Option String
  gsDivision : Option String
  address : Option String
  description : Option String
  beforePhoto : Option ImageAsset
  afterPhoto : Option ImageAsset
  lat : Option Int
  lng : Option Int
  createdAt : Nat
  updatedAt : Nat
deriving DecidableEq, Repr

/-- Handle returned by `mongoose.model(name, schema, collection)`. -/
structure Model where
  modelName : String
  collection : String
deriving DecidableEq, Repr

/-- Observable effects of a handler on its collaborators. -/
inductive Effect where
  | transcode (path : String)
  | unlink (path : String)
  | find (coll : String)
  | findById (coll : String) (id : Nat)
  | insert (coll : String)
  | update (coll : String) (id : Nat)
  | delete (coll : String) (id : Nat)
deriving DecidableEq, Repr

/-- State of everything a handler can touch. -/
structure World where
  /-- Paths that exist on disk. -/
  files : List String
  /-- Result of the `sharp` resize/JPEG pipeline on the file at a path. -/
  sharp : String → Option Buffer
  /-- Collection behind the `Gallery` model. -/
  gallery : List GalleryDoc
  /-- Project collections, by collection name. -/
  projects : String → List ProjectDoc
  /-- How Mongoose casts, in an update, a text part whose name is neither a
  scalar field nor a photo slot: `none` when the cast throws, otherwise the
  effect on the stored document. -/
  castOther : String → String → Option (ProjectDoc → ProjectDoc)
  /-- Whether the database answers; every operation throws when it does not. -/
  dbUp : Bool
  /-- Next identifier handed out by the store. -/
  nextId : Nat
  /-- Clock used for `createdAt` and `updatedAt`. -/
  now : Nat
  /-- Effects performed so far, oldest first. -/
  log : List Effect

/-- Image field of a JSON body: `null`, a string, or the stored sub-document. -/
inductive ImageField where
  | null
  | uri (s : String)
  | raw (a : ImageAsset)
deriving DecidableEq, Repr

/-- JSON rendering of a gallery document. -/
structure GalleryJson where
  id : Nat
  title : Option String
  description : Option String
  image : ImageField
  createdAt : Nat
  updatedAt : Nat
deriving DecidableEq, Repr

/-- JSON rendering of a project document. -/
structure ProjectJson where
  id : Nat
  nationalId : Option String
  name : Option String
  project : Option String
  gsDivision : Option String
  address : Option String
  description : Option String
  beforePhoto : ImageField
  afterPhoto : ImageField
  lat : Option Int
  lng : Option Int
  createdAt : Nat
  updatedAt : Nat
deriving DecidableEq, Repr

/-- Body passed to `res.json`. -/
inductive Body where
  | message (s : String)
  | galleryItem (j : GalleryJson)
  | galleryList (l : List GalleryJson)
  | projectItem (j : ProjectJson)
  | projectList (l : List ProjectJson)
deriving DecidableEq, Repr

/-- Response sent by a handler (`res.json` alone sends status 200). -/
structure Response where
  status : Nat
  body : Body
deriving DecidableEq, Repr

/-! ## JavaScript and library helpers -/

/-- Alphabet of RFC 4648 base64. -/
def b64Alphabet : List Char :=
  "ABCDEFGHIJKLMNOPQRSTUVWXYZabcdefghijklmnopqrstuvwxyz0123456789+/".toList

/-- Character for a six-bit group. -/
def b64Char (n : Nat) : Char := b64Alphabet.getD n '='

/-- Base64 characters of a byte sequence, with `=` padding. -/
def base64Chars : List Nat → List Char
  | [] => []
  | [a] => [b64Char (a / 4), b64Char (a % 4 * 16), '=', '=']
  | [a, b] => [b64Char (a / 4), b64Char (a % 4 * 16 + b / 16), b64Char (b % 16 * 4), '=']
  | a :: b :: c :: rest =>
    b64Char (a / 4) :: b64Char (a % 4 * 16 + b / 16) :: b64Char (b % 16 * 4 + c / 64)
      :: b64Char (c % 64) :: base64Chars rest

/-- Node `buffer.toString("base64")`. -/
def base64 (b : Buffer) : String := String.mk (base64Chars b)

/-- Interpolation of a possibly undefined string in a template literal. -/
def templateString : Option String → String
  | some s => s
  | none => "undefined"

/-- Code points removed by `trim`: the ECMAScript white space and line
terminator characters (TAB, LF, VT, FF, CR, SP, NBSP, U+1680, U+2000 to U+200A,
U+2028, U+2029, U+202F, U+205F, U+3000, U+FEFF). -/
def isSpace (c : Char) : Bool :=
  let n := c.toNat
  n == 9 || n == 10 || n == 11 || n == 12 || n == 13 || n == 32 || n == 160 || n == 5760 ||
  (decide (8192 ≤ n) && decide (n ≤ 8202)) || n == 8232 || n == 8233 || n == 8239 ||
  n == 8287 || n == 12288 || n == 65279

/-- JavaScript `String.prototype.trim`. -/
def trim (s : String) : String :=
  String.mk ((s.toList.dropWhile isSpace).reverse.dropWhile isSpace).reverse

/-- Mongoose `trim: true` setter on an optional string. -/
def trimOpt (s : Option String) : Option String := s.map trim

/-- Mongoose `required: true` on a string path: present and not empty. -/
def requiredString : Option String → Bool
  | some s => s != ""
  | none => false

/-- JavaScript truthiness of an optional string. -/
def truthy : Option String → Bool
  | some s => s != ""
  | none => false

/-- JavaScript `a || b` on optional strings. -/
def orElse (a b : Option String) : Option String := if truthy a then a else b

/-! ## Temporary files and transcoding (shared by both controllers) -/

/-- Append an effect to the log. -/
def World.emit (w : World) (e : Effect) : World := { w with log := w.log ++ [e] }

/-- Node `fs.existsSync`. -/
def existsSync (w : World) (path : String) : Bool := w.files.contains path

/-- Node `fs.unlinkSync`: `none` when it throws because the path is missing. -/
def unlinkSync (w : World) (path : String) : Option World :=
  if w.files.contains path then
    some { w.emit (Effect.unlink path) with files := w.files.filter (fun p => p != path) }
  else none

/-- Function `compressImage` of both controllers: width 800, JPEG quality 70;
`null` when `sharp` throws. -/
def compressImage (w : World) (filePath : String) : World × Option ImageAsset :=
  let w1 := w.emit (Effect.transcode filePath)
  if w.files.contains filePath then
    match w.sharp filePath with
    | some buf => (w1, some { data := some buf, contentType := some "image/jpeg" })
    | none => (w1, none)
  else (w1, none)

/-! ## Mongoose model `Gallery` (`models/galleryModel.js`) -/

namespace GalleryModel

/-- Collection name derived by Mongoose from the model name `Gallery`. -/
def collection : String := "galleries"

/-- Schema validators of `gallerySchema`: only `title` is required. -/
def validate (d : GalleryDoc) : Bool := requiredString d.title

/-- Query `Gallery.find()`: every document in store order; `none` when it throws. -/
def find (w : World) : World × Option (List GalleryDoc) :=
  let w1 := w.emit (Effect.find collection)
  if w.dbUp then (w1, some w.gallery) else (w1, none)

/-- Query `Gallery.findById(id)`: outer `none` when it throws, inner `none` for `null`. -/
def findById (w : World) (id : Nat) : World × Option (Option GalleryDoc) :=
  let w1 := w.emit (Effect.findById collection id)
  if w.dbUp then (w1, some (w.gallery.find? (fun d => d.id == id))) else (w1, none)

/-- Call `new Gallery({ title, description, image }).save()`: setters, validation,
identifier and timestamps, insertion at the end; `none` when it throws. -/
def saveNew (w : World) (title description : Option String) (image : Option ImageAsset) :
    World × Option GalleryDoc :=
  let d : GalleryDoc :=
    { id := w.nextId, title := trimOpt title, description := trimOpt description,
      image := image, createdAt := w.now, updatedAt := w.now }
  if validate d then
    let w1 := w.emit (Effect.insert collection)
    if w.dbUp then ({ w1 with gallery := w.gallery ++ [d], nextId := w.nextId + 1 }, some d)
    else (w1, none)
  else (w, none)

/-- Call `item.save()` on a loaded document: validation; when no path differs
from the stored document nothing is written and `updatedAt` stays; otherwise
the stored document with that identifier is replaced and `updatedAt` is set;
`none` when it throws. -/
def save (w : World) (item : GalleryDoc) : World × Option GalleryDoc :=
  if validate item then
    if w.gallery.find? (fun x => x.id == item.id) = some item then (w, some item)
    else
      let w1 := w.emit (Effect.update collection item.id)
      let d : GalleryDoc := { item with updatedAt := w.now }
      if w.dbUp then
        ({ w1 with gallery := w.gallery.map (fun x => if x.id == item.id then d else x) }, some d)
      else (w1, none)
  else (w, none)

/-- Call `item.deleteOne()`; `false` when it throws. -/
def deleteOne (w : World) (item : GalleryDoc) : World × Bool :=
  let w1 := w.emit (Effect.delete collection item.id)
  if w.dbUp then ({ w1 with gallery := w.gallery.filter (fun x => x.id != item.id) }, true)
  else (w1, false)

/-- Serialisation of a document by `res.json(item)`: the image stays the stored
sub-document. -/
def toJSON (d : GalleryDoc) : GalleryJson :=
  { id := d.id, title := d.title, description := d.description,
    image := match d.image with
      | some a => ImageField.raw a
      | none => ImageField.null,
    createdAt := d.createdAt, updatedAt := d.updatedAt }

end GalleryModel

/-! ## `controllers/galleryController.js` -/

namespace Gallery

/-- Request seen by a gallery handler after `upload.single("image")`. -/
structure Request where
  /-- Route parameter `req.params.id`. -/
  id : Nat
  /-- Text field `req.body.title`. -/
  title : Option String
  /-- Text field `req.body.description`. -/
  description : Option String
  /-- Path `req.file.path` of the uploaded file, if any. -/
  file : Option String

/-- Function `cleanUpFile`: unlink when the path exists, never throws. -/
def cleanUpFile (w : World) (filePath : String) : World :=
  if existsSync w filePath then
    match unlinkSync w filePath with
    | some w1 => w1
    | none => w
  else w

/-- Entry built by the `items.map` callback of `getAllItems`. -/
def formatItem (item : GalleryDoc) : GalleryJson :=
  { id := item.id, title := item.title, description := item.description,
    image := match item.image with
      | some a =>
        match a.data with
        | some d =>
          ImageField.uri ("data:" ++ templateString a.contentType ++ ";base64," ++ base64 d)
        | none => ImageField.null
      | none => ImageField.null,
    createdAt := item.createdAt, updatedAt := item.updatedAt }

/-- Handler `getAllItems`. -/
def getAllItems (w : World) : World × Response :=
  let r := GalleryModel.find w
  match r.2 with
  | some items => (r.1, ⟨200, Body.galleryList (items.map formatItem)⟩)
  | none => (r.1, ⟨500, Body.message "Error fetching gallery items"⟩)

/-- Handler `createItem`. -/
def createItem (w : World) (req : Request) : World × Response :=
  match req.file with
  | none => (w, ⟨400, Body.message "Image is required!"⟩)
  | some path =>
    let c := compressImage w path
    match c.2 with
    | none => (cleanUpFile c.1 path, ⟨500, Body.message "Failed to process image"⟩)
    | some image =>
      let s := GalleryModel.saveNew c.1 req.title req.description (some image)
      match s.2 with
      | some savedItem =>
        (cleanUpFile s.1 path, ⟨201, Body.galleryItem (GalleryModel.toJSON savedItem)⟩)
      | none => (s.1, ⟨500, Body.message "Error creating gallery item"⟩)

/-- Handler `getItemById`. -/
def getItemById (w : World) (req : Request) : World × Response :=
  let r := GalleryModel.findById w req.id
  match r.2 with
  | some (some item) => (r.1, ⟨200, Body.galleryItem (GalleryModel.toJSON item)⟩)
  | some none => (r.1, ⟨404, Body.message "Item not found"⟩)
  | none => (r.1, ⟨500, Body.message "Error fetching gallery item"⟩)

/-- Tail of `updateItem`: `await item.save(); res.json(item)` inside the `try`. -/
def saveAndRespond (w : World) (item : GalleryDoc) : World × Response :=
  let s := GalleryModel.save w item
  match s.2 with
  | some saved => (s.1, ⟨200, Body.galleryItem (GalleryModel.toJSON saved)⟩)
  | none => (s.1, ⟨500, Body.message "Error updating gallery item"⟩)

/-- Handler `updateItem`. -/
def updateItem (w : World) (req : Request) : World × Response :=
  let r := GalleryModel.findById w req.id
  match r.2 with
  | none => (r.1, ⟨500, Body.message "Error updating gallery item"⟩)
  | some none => (r.1, ⟨404, Body.message "Item not found"⟩)
  | some (some item) =>
    let item1 : GalleryDoc :=
      { item with
        title := trimOpt (orElse req.title item.title),
        description := trimOpt (orElse req.description item.description) }
    match req.file with
    | none => saveAndRespond r.1 item1
    | some path =>
      let c := compressImage r.1 path
      match c.2 with
      | some image => saveAndRespond (cleanUpFile c.1 path) { item1 with image := some image }
      | none => saveAndRespond c.1 item1

/-- Handler `deleteItem`. -/
def deleteItem (w : World) (req : Request) : World × Response :=
  let r := GalleryModel.findById w req.id
  match r.2 with
  | none => (r.1, ⟨500, Body.message "Error deleting gallery item"⟩)
  | some none => (r.1, ⟨404, Body.message "Item not found"⟩)
  | some (some item) =>
    let d := GalleryModel.deleteOne r.1 item
    if d.2 then (d.1, ⟨200, Body.message "Item removed"⟩)
    else (d.1, ⟨500, Body.message "Error deleting gallery item"⟩)

end Gallery

/-! ## Mongoose models `CESP`, `CP`, `LED`, `IN` (`models/projectModel.js`) -/

/-- Model `mongoose.model("CESP", projectSchema, "CESP")`. -/
def CESP : Model := ⟨"CESP", "CESP"⟩

/-- Model `mongoose.model("CP", projectSchema, "CP")`. -/
def CP : Model := ⟨"CP", "CP"⟩

/-- Model `mongoose.model("LED", projectSchema, "LED")`. -/
def LED : Model := ⟨"LED", "LED"⟩

/-- Model `mongoose.model("IN", projectSchema, "IN")`. -/
def IN : Model := ⟨"IN", "IN"⟩

namespace ProjectModel

/-- Object `req.body` of a multipart request: the eight scalar fields of the
schema, already cast to their types, and every remaining text part as a pair
of its name and its value. -/
structure Fields where
  nationalId : Option String
  name : Option String
  project : Option String
  gsDivision : Option String
  address : Option String
  description : Option String
  lat : Option Int
  lng : Option Int
  /-- Text parts with any other name, such as `beforePhoto`. -/
  others : List (String × String)
deriving DecidableEq, Repr

/-- Update document `updateData`: the spread `{ ...req.body }`, and the photo keys
assigned after it when a transcoded photo is truthy (`none` when not assigned). -/
structure UpdateData where
  fields : Fields
  beforePhoto : Option ImageAsset
  afterPhoto : Option ImageAsset
deriving DecidableEq, Repr

/-- Options of `findByIdAndUpdate`; Mongoose leaves `runValidators` off by default. -/
structure UpdateOptions where
  new : Bool := false
  runValidators : Bool := false
deriving DecidableEq, Repr

/-- Validator `required: true, min: lo, max: hi` of a number path. -/
def requiredInRange (lo hi : Int) : Option Int → Bool
  | some x => decide (lo ≤ x) && decide (x ≤ hi)
  | none => false

/-- Validator `min: lo, max: hi` alone, as run on a path of an update. -/
def inRange (lo hi : Int) : Option Int → Bool
  | some x => decide (lo ≤ x) && decide (x ≤ hi)
  | none => true

/-- Schema validators of `projectSchema` on a whole document. -/
def validate (d : ProjectDoc) : Bool :=
  requiredString d.nationalId && requiredString d.name && requiredString d.project &&
  requiredString d.gsDivision && requiredString d.address && requiredString d.description &&
  requiredInRange (-90) 90 d.lat && requiredInRange (-180) 180 d.lng

/-- Update validators: the `min`/`max` validators of the paths that are set. -/
def validateUpdate (u : UpdateData) : Bool :=
  inRange (-90) 90 u.fields.lat && inRange (-180) 180 u.fields.lng

/-- Replace the content of one collection. -/
def setCollection (w : World) (coll : String) (docs : List ProjectDoc) : World :=
  { w with projects := fun c => if c = coll then docs else w.projects c }

/-- Query `model.find()`. -/
def find (w : World) (m : Model) : World × Option (List ProjectDoc) :=
  let w1 := w.emit (Effect.find m.collection)
  if w.dbUp then (w1, some (w.projects m.collection)) else (w1, none)

/-- Query `model.findById(id)`. -/
def findById (w : World) (m : Model) (id : Nat) : World × Option (Option ProjectDoc) :=
  let w1 := w.emit (Effect.findById m.collection id)
  if w.dbUp then (w1, some ((w.projects m.collection).find? (fun d => d.id == id)))
  else (w1, none)

/-- Call `new model({ ...req.body, beforePhoto, afterPhoto }).save()`.  The two
photo keys come after the spread and replace text parts of those names; the
other remaining text parts are not applied by this constructor model. -/
def saveNew (w : World) (m : Model) (f : Fields) (beforePhoto afterPhoto : Option ImageAsset) :
    World × Option ProjectDoc :=
  let d : ProjectDoc :=
    { id := w.nextId, nationalId := trimOpt f.nationalId, name := trimOpt f.name,
      project := trimOpt f.project, gsDivision := trimOpt f.gsDivision,
      address := trimOpt f.address, description := trimOpt f.description,
      beforePhoto := beforePhoto, afterPhoto := afterPhoto, lat := f.lat, lng := f.lng,
      createdAt := w.now, updatedAt := w.now }
  if validate d then
    let w1 := w.emit (Effect.insert m.collection)
    if w.dbUp then
      ({ setCollection w1 m.collection (w.projects m.collection ++ [d]) with
          nextId := w.nextId + 1 }, some d)
    else (w1, none)
  else (w, none)

/-- Value of a path after `$set`: the supplied value when the key is present. -/
def setPath {α : Type} (supplied old : Option α) : Option α :=
  match supplied with
  | some v => some v
  | none => old

/-- Cast of one remaining text part of an update: a part named `beforePhoto` or
`afterPhoto` puts its text in place of the stored sub-document, so the slot
holds no asset afterwards; any other name is cast by the oracle.  `none` when
the cast throws. -/
def castPart (castOther : String → String → Option (ProjectDoc → ProjectDoc))
    (part : String × String) : Option (ProjectDoc → ProjectDoc) :=
  if part.1 = "beforePhoto" then some (fun d => { d with beforePhoto := none })
  else if part.1 = "afterPhoto" then some (fun d => { d with afterPhoto := none })
  else castOther part.1 part.2

/-- Cast of all remaining text parts, applied in order; `none` when one throws. -/
def castParts (castOther : String → String → Option (ProjectDoc → ProjectDoc)) :
    List (String × String) → Option (ProjectDoc → ProjectDoc)
  | [] => some (fun d => d)
  | part :: rest =>
    match castPart castOther part, castParts castOther rest with
    | some f, some g => some (fun d => g (f d))
    | _, _ => none

/-- Document after the cast update has been applied to it: the remaining text
parts first, then the scalar fields, then the photo keys assigned after the
spread, which take the place of a text part of the same name.  The identifier
is immutable. -/
def applyUpdate (now : Nat) (d : ProjectDoc) (u : UpdateData)
    (parts : ProjectDoc → ProjectDoc) : ProjectDoc :=
  { parts d with
    id := d.id,
    nationalId := setPath (trimOpt u.fields.nationalId) (parts d).nationalId,
    name := setPath (trimOpt u.fields.name) (parts d).name,
    project := setPath (trimOpt u.fields.project) (parts d).project,
    gsDivision := setPath (trimOpt u.fields.gsDivision) (parts d).gsDivision,
    address := setPath (trimOpt u.fields.address) (parts d).address,
    description := setPath (trimOpt u.fields.description) (parts d).description,
    beforePhoto := setPath u.beforePhoto (parts d).beforePhoto,
    afterPhoto := setPath u.afterPhoto (parts d).afterPhoto,
    lat := setPath u.fields.lat (parts d).lat,
    lng := setPath u.fields.lng (parts d).lng,
    updatedAt := now }

/-- Query `model.findByIdAndUpdate(id, update, options)`: outer `none` when it
throws, inner `none` when no document has the identifier. -/
def findByIdAndUpdate (w : World) (m : Model) (id : Nat) (u : UpdateData)
    (opts : UpdateOptions) : World × Option (Option ProjectDoc) :=
  if opts.runValidators && !validateUpdate u then (w, none)
  else
    match castParts w.castOther u.fields.others with
    | none => (w, none)
    | some parts =>
      let w1 := w.emit (Effect.update m.collection id)
      if w.dbUp then
        match (w.projects m.collection).find? (fun d => d.id == id) with
        | none => (w1, some none)
        | some old =>
          let d := applyUpdate w.now old u parts
          (setCollection w1 m.collection
            ((w.projects m.collection).map (fun x => if x.id == id then d else x)),
            some (some (if opts.new then d else old)))
      else (w1, none)

/-- Query `model.findByIdAndDelete(id)`. -/
def findByIdAndDelete (w : World) (m : Model) (id : Nat) : World × Option (Option ProjectDoc) :=
  let w1 := w.emit (Effect.delete m.collection id)
  if w.dbUp then
    match (w.projects m.collection).find? (fun d => d.id == id) with
    | none => (w1, some none)
    | some old =>
      (setCollection w1 m.collection ((w.projects m.collection).filter (fun x => x.id != id)),
        some (some old))
  else (w1, none)

/-- Serialisation of a document by `res.json(item)`. -/
def toJSON (d : ProjectDoc) : ProjectJson :=
  { id := d.id, nationalId := d.nationalId, name := d.name, project := d.project,
    gsDivision := d.gsDivision, address := d.address, description := d.description,
    beforePhoto := match d.beforePhoto with
      | some a => ImageField.raw a
      | none => ImageField.null,
    afterPhoto := match d.afterPhoto with
      | some a => ImageField.raw a
      | none => ImageField.null,
    lat := d.lat, lng := d.lng, createdAt := d.createdAt, updatedAt := d.updatedAt }

end ProjectModel

/-! ## `controllers/projectController.js` -/

namespace Project

/-- Object `req.files` built by `upload.fields`: the path of the first file of
each field, if any. -/
structure Files where
  beforePhoto : Option String
  afterPhoto : Option String
deriving DecidableEq, Repr

/-- Request seen by a project handler.  `files` is `none` when the request is
not multipart, in which case `req.files` is undefined. -/
structure Request where
  /-- Route parameter `req.params.tab`. -/
  tab : String
  /-- Route parameter `req.params.id`. -/
  id : Nat
  /-- Text fields `req.body`. -/
  body : ProjectModel.Fields
  /-- Object `req.files`. -/
  files : Option Files

/-- Function `getModelByTab`. -/
def getModelByTab (tab : String) : Option Model :=
  if tab = "cesp" then some CESP
  else if tab = "cp" then some CP
  else if tab = "led" then some LED
  else if tab = "in" then some IN
  else none

/-- Function `cleanUpTemporaryFiles`: the two unlinks share one `try`, so a
throw of the first skips the second. -/
def cleanUpTemporaryFiles (w : World) (files : Files) : World :=
  let first : Option World :=
    match files.beforePhoto with
    | some p => unlinkSync w p
    | none => some w
  match first with
  | none => w
  | some w1 =>
    match files.afterPhoto with
    | some p =>
      match unlinkSync w1 p with
      | some w2 => w2
      | none => w1
    | none => w1

/-- Photo expression of `getAllItems`:
`item.photo && item.photo.data ? data URI : null`. -/
def formatPhoto (photo : Option ImageAsset) : ImageField :=
  match photo with
  | some a =>
    match a.data with
    | some d => ImageField.uri ("data:" ++ templateString a.contentType ++ ";base64," ++ base64 d)
    | none => ImageField.null
  | none => ImageField.null

/-- Entry built by the `items.map` callback of `getAllItems`. -/
def formatItem (item : ProjectDoc) : ProjectJson :=
  { id := item.id, nationalId := item.nationalId, name := item.name, project := item.project,
    gsDivision := item.gsDivision, address := item.address, description := item.description,
    beforePhoto := formatPhoto item.beforePhoto, afterPhoto := formatPhoto item.afterPhoto,
    lat := item.lat, lng := item.lng, createdAt := item.createdAt, updatedAt := item.updatedAt }

/-- Photo expression of `getItemById`: `item.photo ? data URI : null`.  The
photo is a nested path of the schema, so `item.photo` is an object and truthy
even when nothing is stored in the slot, and the `null` branch is never taken:
`none` when the slot has no data and `item.photo.data.toString` throws. -/
def formatPhotoById (photo : Option ImageAsset) : Option ImageField :=
  match photo with
  | some a =>
    match a.data with
    | some d =>
      some (ImageField.uri ("data:" ++ templateString a.contentType ++ ";base64," ++ base64 d))
    | none => none
  | none => none

/-- Object `formattedItem` of `getItemById`; `none` when building it throws. -/
def formatItemById (item : ProjectDoc) : Option ProjectJson :=
  match formatPhotoById item.beforePhoto with
  | none => none
  | some b =>
    match formatPhotoById item.afterPhoto with
    | none => none
    | some a =>
      some { id := item.id, nationalId := item.nationalId, name := item.name,
             project := item.project, gsDivision := item.gsDivision, address := item.address,
             description := item.description, beforePhoto := b, afterPhoto := a,
             lat := item.lat, lng := item.lng, createdAt := item.createdAt,
             updatedAt := item.updatedAt }

/-- Handler `getAllItems`. -/
def getAllItems (w : World) (req : Request) : World × Response :=
  match getModelByTab req.tab with
  | none => (w, ⟨400, Body.message "Invalid collection/tab"⟩)
  | some model =>
    let r := ProjectModel.find w model
    match r.2 with
    | some items => (r.1, ⟨200, Body.projectList (items.map formatItem)⟩)
    | none => (r.1, ⟨500, Body.message "Error fetching items"⟩)

/-- Handler `getItemById`. -/
def getItemById (w : World) (req : Request) : World × Response :=
  match getModelByTab req.tab with
  | none => (w, ⟨400, Body.message "Invalid collection/tab"⟩)
  | some model =>
    let r := ProjectModel.findById w model req.id
    match r.2 with
    | none => (r.1, ⟨500, Body.message "Error fetching item"⟩)
    | some none => (r.1, ⟨404, Body.message "Item not found"⟩)
    | some (some item) =>
      match formatItemById item with
      | some formattedItem => (r.1, ⟨200, Body.projectItem formattedItem⟩)
      | none => (r.1, ⟨500, Body.message "Error fetching item"⟩)

/-- Statement `if (req.files.photo) photo = await compressImage(file.path)`. -/
def compressSlot (w : World) (slot : Option String) : World × Option ImageAsset :=
  match slot with
  | some path => compressImage w path
  | none => (w, none)

/-- Handler `createItem`. -/
def createItem (w : World) (req : Request) : World × Response :=
  match getModelByTab req.tab with
  | none => (w, ⟨400, Body.message "Invalid collection/tab"⟩)
  | some model =>
    match req.files with
    | none => (w, ⟨400, Body.message "Error creating item"⟩)
    | some files =>
      let b := compressSlot w files.beforePhoto
      let a := compressSlot b.1 files.afterPhoto
      let s := ProjectModel.saveNew a.1 model req.body b.2 a.2
      match s.2 with
      | some savedItem =>
        (cleanUpTemporaryFiles s.1 files, ⟨201, Body.projectItem (ProjectModel.toJSON savedItem)⟩)
      | none => (s.1, ⟨400, Body.message "Error creating item"⟩)

/-- Handler `updateItem`. -/
def updateItem (w : World) (req : Request) : World × Response :=
  match getModelByTab req.tab with
  | none => (w, ⟨400, Body.message "Invalid collection/tab"⟩)
  | some model =>
    match req.files with
    | none => (w, ⟨400, Body.message "Error updating item"⟩)
    | some files =>
      let b := compressSlot w files.beforePhoto
      let a := compressSlot b.1 files.afterPhoto
      let updateData : ProjectModel.UpdateData :=
        { fields := req.body, beforePhoto := b.2, afterPhoto := a.2 }
      let u := ProjectModel.findByIdAndUpdate a.1 model req.id updateData { new := true }
      match u.2 with
      | none => (u.1, ⟨400, Body.message "Error updating item"⟩)
      | some none => (u.1, ⟨404, Body.message "Item not found"⟩)
      | some (some updatedItem) =>
        (cleanUpTemporaryFiles u.1 files,
          ⟨200, Body.projectItem (ProjectModel.toJSON updatedItem)⟩)

/-- Handler `deleteItem`. -/
def deleteItem (w : World) (req : Request) : World × Response :=
  match getModelByTab req.tab with
  | none => (w, ⟨400, Body.message "Invalid collection/tab"⟩)
  | some model =>
    let r := ProjectModel.findByIdAndDelete w model req.id
    match r.2 with
    | none => (r.1, ⟨500, Body.message "Error deleting item"⟩)
    | some none => (r.1, ⟨404, Body.message "Item not found"⟩)
    | some (some _) => (r.1, ⟨200, Body.message "Item deleted successfully!"⟩)

end Project

/-! ## `config/uploadConfig.js` -/

namespace UploadConfig

/-- File description handed to `fileFilter` by multer. -/
structure File where
  originalname : String
  mimetype : String
deriving DecidableEq, Repr

/-- Outcome of the callback `cb(error, accept)`. -/
inductive FilterResult where
  | accept
  | reject (message : String)
deriving DecidableEq, Repr

/-- Whether `pat` occurs in `s` as a contiguous run of characters. -/
def containsSub (s pat : List Char) : Bool := s.tails.any (fun t => pat.isPrefixOf t)

/-- Regular expression test `/jpeg|jpg|png|gif/.test(s)`: the pattern has no
anchors, so it succeeds when one alternative occurs anywhere in `s`. -/
def allowedTypesTest (s : String) : Bool :=
  ["jpeg", "jpg", "png", "gif"].any (fun alt => containsSub s.toList alt.toList)

/-- Last component of a POSIX path, trailing separators dropped. -/
def basenameChars (p : List Char) : List Char :=
  ((p.reverse.dropWhile (fun c => c == '/')).takeWhile (fun c => c != '/')).reverse

/-- Node `path.extname`: from the last `.` of the last path component to its
end; empty when there is no `.`, when the only `.` is the first character, or
when the component is `..`. -/
def extname (path : String) : String :=
  let b := basenameChars path.toList
  let ext := (b.reverse.takeWhile (fun c => c != '.')).reverse
  if ext.length = b.length then ""
  else if b.length - ext.length - 1 = 0 then ""
  else if b = ['.', '.'] then ""
  else String.mk ('.' :: ext)

/-- JavaScript `toLowerCase` on the ASCII range. -/
def toLowerCase (s : String) : String := String.mk (s.toList.map Char.toLower)

/-- Function `fileFilter`. -/
def fileFilter (file : File) : FilterResult :=
  let extName := allowedTypesTest (toLowerCase (extname file.originalname))
  let mimeType := allowedTypesTest file.mimetype
  if extName && mimeType then FilterResult.accept
  else FilterResult.reject "Invalid file type. Only JPEG, JPG, PNG, and GIF are allowed."

end UploadConfig

/-! ## Listing contract -/

/-- An image slot holds image data when the sub-document is there and has bytes. -/
def holdsData (slot : Option ImageAsset) : Prop := ∃ a d, slot = some a ∧ a.data = some d

/-- Rendering of one image slot in a listing: the data URI
`data:<contentType>;base64,<bytes>` when the slot holds image data (an
undefined content type interpolates as `undefined`), `null` otherwise. -/
def RendersSlot (slot : Option ImageAsset) (field : ImageField) : Prop :=
  (∀ d ct, slot = some ⟨some d, some ct⟩ →
    field = ImageField.uri ("data:" ++ ct ++ ";base64," ++ base64 d)) ∧
  (∀ d, slot = some ⟨some d, none⟩ →
    field = ImageField.uri ("data:undefined;base64," ++ base64 d)) ∧
  (¬ holdsData slot → field = ImageField.null)

/-- A listing entry keeps the non-image fields of a gallery record and renders
its image. -/
def GalleryEntry (item : GalleryDoc) (entry : GalleryJson) : Prop :=
  entry.id = item.id ∧ entry.title = item.title ∧ entry.description = item.description ∧
  entry.createdAt = item.createdAt ∧ entry.updatedAt = item.updatedAt ∧
  RendersSlot item.image entry.image

/-- A listing entry keeps the non-image fields of a project record and renders
both photos. -/
def ProjectEntry (item : ProjectDoc) (entry : ProjectJson) : Prop :=
  entry.id = item.id ∧ entry.nationalId = item.nationalId ∧ entry.name = item.name ∧
  entry.project = item.project ∧ entry.gsDivision = item.gsDivision ∧
  entry.address = item.address ∧ entry.description = item.description ∧
  entry.lat = item.lat ∧ entry.lng = item.lng ∧
  entry.createdAt = item.createdAt ∧ entry.updatedAt = item.updatedAt ∧
  RendersSlot item.beforePhoto entry.beforePhoto ∧ RendersSlot item.afterPhoto entry.afterPhoto

/-! ## Sample states and requests -/

namespace Sample

/-- Temporary path written by multer for the uploaded file. -/
def upload : String := "uploads/image-1.jpeg"

/-- Stored gallery item. -/
def galleryItem : GalleryDoc :=
  { id := 1, title := some "Old", description := some "D",
    image := some { data := some [1, 2, 3], contentType := some "image/jpeg" },
    createdAt := 0, updatedAt := 0 }

/-- Stored project item of collection `CESP`, valid for the schema. -/
def projectItem : ProjectDoc :=
  { id := 1, nationalId := some "N1", name := some "Name", project := some "P",
    gsDivision := some "G", address := some "Addr", description := some "Desc",
    beforePhoto := some { data := some [4, 5, 6], contentType := some "image/jpeg" },
    afterPhoto := none, lat := some 7, lng := some 80, createdAt := 0, updatedAt := 0 }

/-- One record in the gallery and in `CESP`, one uploaded file on disk, the
database up, and a transcoder that succeeds. -/
def world : World :=
  { files := [upload], sharp := fun _ => some [255, 216, 255], gallery := [galleryItem],
    projects := fun c => if c = "CESP" then [projectItem] else [],
    castOther := fun _ _ => some (fun d => d), dbUp := true,
    nextId := 2, now := 10, log := [] }

/-- Same state with a transcoder that fails on every file. -/
def worldBadImage : World := { world with sharp := fun _ => none }

/-- Body without any text field. -/
def noFields : ProjectModel.Fields :=
  { nationalId := none, name := none, project := none, gsDivision := none, address := none,
    description := none, lat := none, lng := none, others := [] }

/-- Complete, valid project body. -/
def validFields : ProjectModel.Fields :=
  { nationalId := some "N2", name := some "Name2", project := some "P2",
    gsDivision := some "G2", address := some "Addr2", description := some "Desc2",
    lat := some 6, lng := some 79, others := [] }

end Sample

/-! ## Frame lemmas -/

theorem find?_map_replace {α : Type} (k : α → Nat) (l : List α) (id : Nat) (d : α)
    (hd : k d = id) (hex : (l.find? (fun x => k x == id)).isSome = true) :
    (l.map (fun x => if k x == id then d else x)).find? (fun x => k x == id) = some d := by
  induction l with
  | nil => simp at hex
  | cons a t ih =>
    simp only [List.map_cons, List.find?_cons] at hex ⊢
    by_cases ha : k a = id
    · have h1 : (k a == id) = true := by simpa using ha
      have h2 : (k d == id) = true := by simpa using hd
      simp only [h1, if_true, h2]
    · have h1 : (k a == id) = false := by simpa using ha
      simp only [h1, Bool.false_eq_true, if_false] at hex ⊢
      exact ih hex

theorem emit_gallery (w : World) (e : Effect) : (w.emit e).gallery = w.gallery := rfl

theorem emit_projects (w : World) (e : Effect) : (w.emit e).projects = w.projects := rfl

theorem emit_dbUp (w : World) (e : Effect) : (w.emit e).dbUp = w.dbUp := rfl

theorem emit_now (w : World) (e : Effect) : (w.emit e).now = w.now := rfl

theorem emit_files (w : World) (e : Effect) : (w.emit e).files = w.files := rfl

theorem compressImage_fst (w : World) (p : String) :
    (compressImage w p).1 = w.emit (Effect.transcode p) := by
  unfold compressImage
  split
  · split <;> rfl
  · rfl

theorem GalleryModel.save_gallery (w : World) (item : GalleryDoc) :
    (GalleryModel.save w item).1.gallery = w.gallery ∨
    (GalleryModel.save w item).1.gallery =
      w.gallery.map (fun x => if x.id == item.id then { item with updatedAt := w.now } else x) := by
  unfold GalleryModel.save
  by_cases hv : GalleryModel.validate item = true
  · by_cases hsame : w.gallery.find? (fun x => x.id == item.id) = some item
    · left; simp only [hv, hsame, if_true]
    · by_cases hup : w.dbUp = true
      · right; simp only [hv, hsame, hup, if_true, if_false]
      · left; simp only [hv, hsame, hup, if_true, if_false]; rfl
  · left; simp only [hv]; rfl

theorem GalleryModel.save_lookup (w : World) (item old : GalleryDoc) (id : Nat)
    (hid : item.id = id) (hold : w.gallery.find? (fun d => d.id == id) = some old)
    (himg : item.image = old.image) :
    ∃ d, (GalleryModel.save w item).1.gallery.find? (fun d => d.id == id) = some d ∧
      d.image = old.image := by
  rcases GalleryModel.save_gallery w item with hs | hs
  · rw [hs]; exact ⟨old, hold, rfl⟩
  · rw [hs]
    refine ⟨{ item with updatedAt := w.now }, ?_, himg⟩
    subst hid
    apply find?_map_replace (fun d : GalleryDoc => d.id)
    · rfl
    · simp [hold]

theorem Gallery.saveAndRespond_fst (w : World) (item : GalleryDoc) :
    (Gallery.saveAndRespond w item).1 = (GalleryModel.save w item).1 := by
  cases h : (GalleryModel.save w item).2 <;> simp [Gallery.saveAndRespond, h]

theorem GalleryModel.findById_fst (w : World) (id : Nat) :
    (GalleryModel.findById w id).1 = w.emit (Effect.findById GalleryModel.collection id) := by
  unfold GalleryModel.findById
  split <;> rfl

theorem GalleryModel.findById_snd (w : World) (id : Nat) :
    (GalleryModel.findById w id).2 = none ∨
    (GalleryModel.findById w id).2 = some (w.gallery.find? (fun d => d.id == id)) := by
  unfold GalleryModel.findById
  split
  · right; rfl
  · left; rfl

theorem Gallery.updateItem_keeps_image (w : World) (req : Gallery.Request) (item : GalleryDoc)
    (hfile : req.file = none)
    (hitem : w.gallery.find? (fun d => d.id == req.id) = some item) :
    ∃ item1, (Gallery.updateItem w req).1.gallery.find? (fun d => d.id == req.id) = some item1 ∧
      item1.image = item.image := by
  have hid : item.id = req.id := by
    have := List.find?_some hitem
    simpa using this
  unfold Gallery.updateItem
  rcases GalleryModel.findById_snd w req.id with h | h
  · simp only [h, GalleryModel.findById_fst, emit_gallery]
    exact ⟨item, hitem, rfl⟩
  · simp only [h, hitem, hfile, GalleryModel.findById_fst, Gallery.saveAndRespond_fst]
    exact GalleryModel.save_lookup _ _ item req.id hid hitem rfl

theorem Project.getModelByTab_none (tab : String)
    (h : tab ∉ ["cesp", "cp", "led", "in"]) : Project.getModelByTab tab = none := by
  simp only [List.mem_cons, List.mem_singleton, List.not_mem_nil, or_false, not_or] at h
  unfold Project.getModelByTab
  simp [h.1, h.2.1, h.2.2.1, h.2.2.2]

/-! ## Claims -/

section Claims

open Sample

/-- Claim C1 (temporary upload gone after every response), evaluated on the
paths where it fails: with the uploaded file on disk before the call, the file
is still on disk after gallery `updateItem` answers 404 for an unknown id,
after gallery `createItem` answers 500 because the store rejects the record,
after gallery `updateItem` answers 200 although the transcode failed, after
project `createItem` answers 400 because the store rejects the record, and
after project `updateItem` answers 404 for an unknown id. -/
theorem upload_left_on_disk_after_response :
    existsSync world upload = true ∧
    ((Gallery.updateItem world ⟨99, some "A", none, some upload⟩).2.status = 404 ∧
      existsSync (Gallery.updateItem world ⟨99, some "A", none, some upload⟩).1 upload = true) ∧
    ((Gallery.createItem world ⟨0, none, some "B", some upload⟩).2.status = 500 ∧
      existsSync (Gallery.createItem world ⟨0, none, some "B", some upload⟩).1 upload = true) ∧
    ((Gallery.updateItem worldBadImage ⟨1, some "A", none, some upload⟩).2.status = 200 ∧
      existsSync (Gallery.updateItem worldBadImage ⟨1, some "A", none, some upload⟩).1 upload
        = true) ∧
    ((Project.createItem world ⟨"cesp", 0, noFields, some ⟨some upload, none⟩⟩).2.status = 400 ∧
      existsSync (Project.createItem world ⟨"cesp", 0, noFields, some ⟨some upload, none⟩⟩).1
        upload = true) ∧
    ((Project.updateItem world ⟨"cesp", 99, noFields, some ⟨some upload, none⟩⟩).2.status = 404 ∧
      existsSync (Project.updateItem world ⟨"cesp", 99, noFields, some ⟨some upload, none⟩⟩).1
        upload = true) := by
  decide

/-- Claim C2 (a failed transcode yields an error status and no store change),
evaluated where it fails: with a transcoder that fails on the uploaded file,
gallery `updateItem` answers 200 and rewrites the record, project `createItem`
answers 201 and inserts a record without the photo, and project `updateItem`
answers 200 and rewrites the record; only gallery `createItem` answers 500 and
leaves the collection as it was. -/
theorem transcode_failure_not_reported :
    ((Gallery.updateItem worldBadImage ⟨1, some "New", none, some upload⟩).2.status = 200 ∧
      (Gallery.updateItem worldBadImage ⟨1, some "New", none, some upload⟩).1.gallery =
        [{ galleryItem with title := some "New", updatedAt := 10 }]) ∧
    ((Project.createItem worldBadImage
        ⟨"cesp", 0, validFields, some ⟨some upload, none⟩⟩).2.status = 201 ∧
      ((Project.createItem worldBadImage
        ⟨"cesp", 0, validFields, some ⟨some upload, none⟩⟩).1.projects "CESP").map
          (fun d => (d.id, d.beforePhoto)) = [(1, projectItem.beforePhoto), (2, none)]) ∧
    ((Project.updateItem worldBadImage
        ⟨"cesp", 1, { noFields with name := some "Renamed" },
          some ⟨some upload, none⟩⟩).2.status = 200 ∧
      ((Project.updateItem worldBadImage
        ⟨"cesp", 1, { noFields with name := some "Renamed" },
          some ⟨some upload, none⟩⟩).1.projects "CESP").map (fun d => d.name)
        = [some "Renamed"]) ∧
    ((Gallery.createItem worldBadImage ⟨0, some "A", none, some upload⟩).2.status = 500 ∧
      (Gallery.createItem worldBadImage ⟨0, some "A", none, some upload⟩).1.gallery =
        worldBadImage.gallery) := by
  decide

/-- Claim C3: for a tab that is not one of `cesp`, `cp`, `led`, `in`, each of the
five project handlers answers 400 and returns the world it was given, so the
collections, the disk and the effect log (no find, insert, update, delete or
transcode entry) are untouched. -/
theorem invalid_tab_rejected_before_any_effect (w : World) (req : Project.Request)
    (h : req.tab ∉ ["cesp", "cp", "led", "in"]) :
    ((Project.getAllItems w req).2.status = 400 ∧ (Project.getAllItems w req).1 = w) ∧
    ((Project.getItemById w req).2.status = 400 ∧ (Project.getItemById w req).1 = w) ∧
    ((Project.createItem w req).2.status = 400 ∧ (Project.createItem w req).1 = w) ∧
    ((Project.updateItem w req).2.status = 400 ∧ (Project.updateItem w req).1 = w) ∧
    ((Project.deleteItem w req).2.status = 400 ∧ (Project.deleteItem w req).1 = w) := by
  have hm := Project.getModelByTab_none req.tab h
  simp [Project.getAllItems, Project.getItemById, Project.createItem, Project.updateItem,
    Project.deleteItem, hm]

/-- Claim C3 at the tab `foo`. -/
theorem invalid_tab_rejected_before_any_effect_witness :
    ("foo" ∉ ["cesp", "cp", "led", "in"]) ∧
    ((Project.getAllItems world ⟨"foo", 1, validFields, some ⟨some upload, none⟩⟩).2.status = 400 ∧
      (Project.getAllItems world ⟨"foo", 1, validFields, some ⟨some upload, none⟩⟩).1 = world) ∧
    ((Project.getItemById world ⟨"foo", 1, validFields, some ⟨some upload, none⟩⟩).2.status = 400 ∧
      (Project.getItemById world ⟨"foo", 1, validFields, some ⟨some upload, none⟩⟩).1 = world) ∧
    ((Project.createItem world ⟨"foo", 1, validFields, some ⟨some upload, none⟩⟩).2.status = 400 ∧
      (Project.createItem world ⟨"foo", 1, validFields, some ⟨some upload, none⟩⟩).1 = world) ∧
    ((Project.updateItem world ⟨"foo", 1, validFields, some ⟨some upload, none⟩⟩).2.status = 400 ∧
      (Project.updateItem world ⟨"foo", 1, validFields, some ⟨some upload, none⟩⟩).1 = world) ∧
    ((Project.deleteItem world ⟨"foo", 1, validFields, some ⟨some upload, none⟩⟩).2.status = 400 ∧
      (Project.deleteItem world ⟨"foo", 1, validFields, some ⟨some upload, none⟩⟩).1 = world) :=
  ⟨by decide, invalid_tab_rejected_before_any_effect world
    ⟨"foo", 1, validFields, some ⟨some upload, none⟩⟩ (by decide)⟩

/-- Claim C4: `getModelByTab` returns a model exactly for the four
case-sensitive names `cesp`, `cp`, `led`, `in`, maps them to `CESP`, `CP`,
`LED`, `IN` respectively, these four models and their collections are pairwise
distinct, and every other string gives `null`. -/
theorem getModelByTab_total_and_exact :
    (∀ tab, (Project.getModelByTab tab).isSome = true ↔ tab ∈ ["cesp", "cp", "led", "in"]) ∧
    (∀ tab, Project.getModelByTab tab = none ↔ tab ∉ ["cesp", "cp", "led", "in"]) ∧
    Project.getModelByTab "cesp" = some CESP ∧ Project.getModelByTab "cp" = some CP ∧
    Project.getModelByTab "led" = some LED ∧ Project.getModelByTab "in" = some IN ∧
    [CESP, CP, LED, IN].Nodup ∧ ([CESP, CP, LED, IN].map (fun m => m.collection)).Nodup ∧
    Project.getModelByTab "CESP" = none ∧ Project.getModelByTab "Cp" = none ∧
    Project.getModelByTab " in" = none := by
  have key : ∀ tab, (Project.getModelByTab tab).isSome = true ↔
      tab ∈ ["cesp", "cp", "led", "in"] := by
    intro tab
    simp only [List.mem_cons, List.mem_singleton, List.not_mem_nil, or_false]
    unfold Project.getModelByTab
    by_cases h1 : tab = "cesp"
    · simp [h1]
    · by_cases h2 : tab = "cp"
      · simp [h2]
      · by_cases h3 : tab = "led"
        · simp [h3]
        · by_cases h4 : tab = "in"
          · simp [h4]
          · simp [h1, h2, h3, h4]
  refine ⟨key, ?_, by decide, by decide, by decide, by decide, by decide, by decide,
    by decide, by decide, by decide⟩
  intro tab
  rw [← key tab]
  cases Project.getModelByTab tab <;> simp


theorem unlinkSync_projects (w w1 : World) (p : String) (h : unlinkSync w p = some w1) :
    w1.projects = w.projects := by
  unfold unlinkSync at h
  split at h
  · cases h; rfl
  · cases h

theorem Project.cleanUpTemporaryFiles_projects (w : World) (files : Project.Files) :
    (Project.cleanUpTemporaryFiles w files).projects = w.projects := by
  unfold Project.cleanUpTemporaryFiles
  cases hb : files.beforePhoto with
  | none =>
    cases ha : files.afterPhoto with
    | none => rfl
    | some q =>
      cases hq : unlinkSync w q with
      | none => simp only [hq]
      | some w2 => simp only [hq]; exact unlinkSync_projects w w2 q hq
  | some p =>
    cases hp : unlinkSync w p with
    | none => simp only [hp]
    | some w1 =>
      have h1 := unlinkSync_projects w w1 p hp
      cases ha : files.afterPhoto with
      | none => simp only [hp]; exact h1
      | some q =>
        cases hq : unlinkSync w1 q with
        | none => simp only [hp, hq]; exact h1
        | some w2 => simp only [hp, hq]; rw [unlinkSync_projects w1 w2 q hq]; exact h1

theorem Project.compressSlot_fst (w : World) (slot : Option String) :
    (Project.compressSlot w slot).1.projects = w.projects ∧
    (Project.compressSlot w slot).1.dbUp = w.dbUp ∧
    (Project.compressSlot w slot).1.now = w.now := by
  cases slot with
  | none => exact ⟨rfl, rfl, rfl⟩
  | some p => simp only [Project.compressSlot, compressImage_fst]; exact ⟨rfl, rfl, rfl⟩

theorem ProjectModel.findByIdAndUpdate_lookup (w : World) (m : Model) (id : Nat)
    (u : ProjectModel.UpdateData) (opts : ProjectModel.UpdateOptions) (old : ProjectDoc)
    (hold : (w.projects m.collection).find? (fun d => d.id == id) = some old) :
    ∃ d, ((ProjectModel.findByIdAndUpdate w m id u opts).1.projects m.collection).find?
        (fun d => d.id == id) = some d ∧
      (u.fields.others = [] → u.beforePhoto = none → d.beforePhoto = old.beforePhoto) ∧
      (u.fields.others = [] → u.afterPhoto = none → d.afterPhoto = old.afterPhoto) := by
  have hid : old.id = id := by
    have := List.find?_some hold
    simpa using this
  unfold ProjectModel.findByIdAndUpdate
  split
  · exact ⟨old, hold, fun _ _ => rfl, fun _ _ => rfl⟩
  · cases hc : ProjectModel.castParts w.castOther u.fields.others with
    | none => exact ⟨old, hold, fun _ _ => rfl, fun _ _ => rfl⟩
    | some parts =>
      by_cases hup : w.dbUp = true
      · simp only [hup, if_true, hold, ProjectModel.setCollection]
        refine ⟨ProjectModel.applyUpdate w.now old u parts, ?_, ?_, ?_⟩
        · apply find?_map_replace (fun d : ProjectDoc => d.id)
          · exact hid
          · simp [hold]
        · intro ho h
          rw [ho] at hc
          simp only [ProjectModel.castParts, Option.some.injEq] at hc
          subst hc
          simp [ProjectModel.applyUpdate, ProjectModel.setPath, h]
        · intro ho h
          rw [ho] at hc
          simp only [ProjectModel.castParts, Option.some.injEq] at hc
          subst hc
          simp [ProjectModel.applyUpdate, ProjectModel.setPath, h]
      · simp only [hup]
        exact ⟨old, hold, fun _ _ => rfl, fun _ _ => rfl⟩

theorem Project.updateItem_keeps_photos (w : World) (req : Project.Request) (m : Model)
    (item : ProjectDoc) (hm : Project.getModelByTab req.tab = some m)
    (hitem : (w.projects m.collection).find? (fun d => d.id == req.id) = some item) :
    ∃ d, ((Project.updateItem w req).1.projects m.collection).find?
        (fun d => d.id == req.id) = some d ∧
      (req.body.others = [] → req.files.bind Project.Files.beforePhoto = none →
        d.beforePhoto = item.beforePhoto) ∧
      (req.body.others = [] → req.files.bind Project.Files.afterPhoto = none →
        d.afterPhoto = item.afterPhoto) := by
  unfold Project.updateItem
  simp only [hm]
  cases hf : req.files with
  | none => exact ⟨item, hitem, fun _ _ => rfl, fun _ _ => rfl⟩
  | some files =>
    simp only [Option.bind]
    have hb := Project.compressSlot_fst w files.beforePhoto
    have ha := Project.compressSlot_fst (Project.compressSlot w files.beforePhoto).1
      files.afterPhoto
    have hold : ((Project.compressSlot (Project.compressSlot w files.beforePhoto).1
        files.afterPhoto).1.projects m.collection).find? (fun d => d.id == req.id)
        = some item := by
      rw [ha.1, hb.1]; exact hitem
    obtain ⟨d, hd, hdb, hda⟩ := ProjectModel.findByIdAndUpdate_lookup _ m req.id
      { fields := req.body, beforePhoto := (Project.compressSlot w files.beforePhoto).2,
        afterPhoto := (Project.compressSlot (Project.compressSlot w files.beforePhoto).1
          files.afterPhoto).2 } { new := true } item hold
    refine ⟨d, ?_, ?_, ?_⟩
    · split
      · exact hd
      · exact hd
      · rw [Project.cleanUpTemporaryFiles_projects]; exact hd
    · intro ho h; apply hdb ho; simp only [h]; rfl
    · intro ho h; apply hda ho; simp only [h]; rfl

/-- Claim C5 as amended: when an update request carries no uploaded file for an
image slot, the record found under the same id after the handler has run holds
in that slot the asset it held before: always for the gallery `image`, and for
the project `beforePhoto` and `afterPhoto` (each on its own) when the body
holds no text part besides the scalar fields of the schema. -/
theorem update_without_file_keeps_stored_image (w : World) :
    (∀ (req : Gallery.Request) (item : GalleryDoc), req.file = none →
      w.gallery.find? (fun d => d.id == req.id) = some item →
      ∃ d, (Gallery.updateItem w req).1.gallery.find? (fun d => d.id == req.id) = some d ∧
        d.image = item.image) ∧
    (∀ (req : Project.Request) (m : Model) (item : ProjectDoc),
      Project.getModelByTab req.tab = some m →
      (w.projects m.collection).find? (fun d => d.id == req.id) = some item →
      ∃ d, ((Project.updateItem w req).1.projects m.collection).find?
          (fun d => d.id == req.id) = some d ∧
        (req.body.others = [] → req.files.bind Project.Files.beforePhoto = none →
          d.beforePhoto = item.beforePhoto) ∧
        (req.body.others = [] → req.files.bind Project.Files.afterPhoto = none →
          d.afterPhoto = item.afterPhoto)) :=
  ⟨fun req item hfile hitem => Gallery.updateItem_keeps_image w req item hfile hitem,
   fun req m item hm hitem => Project.updateItem_keeps_photos w req m item hm hitem⟩

/-- Claim C5 on the sample world: a gallery update without a file, and a project
update that uploads only an after photo and renames the record. -/
theorem update_without_file_keeps_stored_image_witness :
    (∃ d, (Gallery.updateItem world ⟨1, some "New", none, none⟩).1.gallery.find?
        (fun d => d.id == 1) = some d ∧ d.image = galleryItem.image) ∧
    (∃ d, ((Project.updateItem world
        ⟨"cesp", 1, { noFields with name := some "Renamed" },
          some ⟨none, some upload⟩⟩).1.projects "CESP").find?
        (fun d => d.id == 1) = some d ∧ d.beforePhoto = projectItem.beforePhoto) := by
  constructor
  · exact (update_without_file_keeps_stored_image world).1
      ⟨1, some "New", none, none⟩ galleryItem rfl (by decide)
  · obtain ⟨d, hd, hb, _⟩ := (update_without_file_keeps_stored_image world).2
      ⟨"cesp", 1, { noFields with name := some "Renamed" }, some ⟨none, some upload⟩⟩
      CESP projectItem (by decide) (by decide)
    exact ⟨d, hd, hb rfl rfl⟩

/-- Claim C5 as first stated fails: a project update with no uploaded file and a
text part named `beforePhoto` answers 200 and the stored record no longer holds
the photo it held before. -/
theorem project_updateItem_text_part_replaces_photo :
    (Project.updateItem world
      ⟨"cesp", 1, { noFields with others := [("beforePhoto", "x")] },
        some ⟨none, none⟩⟩).2.status = 200 ∧
    ((Project.updateItem world
      ⟨"cesp", 1, { noFields with others := [("beforePhoto", "x")] },
        some ⟨none, none⟩⟩).1.projects "CESP").map (fun d => d.beforePhoto) = [none] ∧
    (world.projects "CESP").map (fun d => d.beforePhoto) =
      [some { data := some [4, 5, 6], contentType := some "image/jpeg" }] := by
  decide

/-- Claim C6 (reading a record by id renders its image as a data URI),
evaluated where it fails: a gallery item created with a valid image reads back
through gallery `getItemById` with the stored sub-document (bytes and content
type) in its image field, not the data URI that `getAllItems` renders for the
same record. -/
theorem gallery_getItemById_serves_stored_image :
    (Gallery.createItem world ⟨0, some "A", some "B", some upload⟩).2.status = 201 ∧
    (Gallery.getItemById (Gallery.createItem world ⟨0, some "A", some "B", some upload⟩).1
        ⟨2, none, none, none⟩).2 =
      ⟨200, Body.galleryItem
        { id := 2, title := some "A", description := some "B",
          image := ImageField.raw { data := some [255, 216, 255],
                                    contentType := some "image/jpeg" },
          createdAt := 10, updatedAt := 10 }⟩ ∧
    ImageField.raw { data := some [255, 216, 255], contentType := some "image/jpeg" } ≠
      ImageField.uri ("data:" ++ "image/jpeg" ++ ";base64," ++ base64 [255, 216, 255]) ∧
    (Gallery.getAllItems (Gallery.createItem world
        ⟨0, some "A", some "B", some upload⟩).1).2 =
      ⟨200, Body.galleryList
        [{ id := 1, title := some "Old", description := some "D",
           image := ImageField.uri "data:image/jpeg;base64,AQID", createdAt := 0,
           updatedAt := 0 },
         { id := 2, title := some "A", description := some "B",
           image := ImageField.uri "data:image/jpeg;base64,/9j/", createdAt := 10,
           updatedAt := 10 }]⟩ := by
  decide

theorem rendersSlot_formatPhoto (slot : Option ImageAsset) :
    RendersSlot slot (Project.formatPhoto slot) := by
  refine ⟨?_, ?_, ?_⟩
  · intro d ct h; subst h; rfl
  · intro d h; subst h; rfl
  · intro h
    cases slot with
    | none => rfl
    | some a =>
      cases hd : a.data with
      | none => simp [Project.formatPhoto, hd]
      | some d => exact absurd ⟨a, d, rfl, hd⟩ h

theorem Gallery.formatItem_image (item : GalleryDoc) :
    (Gallery.formatItem item).image = Project.formatPhoto item.image := by
  unfold Gallery.formatItem Project.formatPhoto
  cases item.image with
  | none => rfl
  | some a => cases a.data <;> rfl

/-- Claim C7: when the store answers, gallery `getAllItems` and project
`getAllItems` with a valid tab answer 200 with one entry per stored record in
store order, each entry keeping the non-image fields and rendering every image
slot as `data:<contentType>;base64,<base64 of the bytes>` when the slot holds
image data and as `null` otherwise. -/
theorem listing_renders_every_record (w : World) (hup : w.dbUp = true) :
    (∃ l, (Gallery.getAllItems w).2 = ⟨200, Body.galleryList l⟩ ∧
      l.length = w.gallery.length ∧ List.Forall₂ GalleryEntry w.gallery l) ∧
    (∀ (req : Project.Request) (m : Model), Project.getModelByTab req.tab = some m →
      ∃ l, (Project.getAllItems w req).2 = ⟨200, Body.projectList l⟩ ∧
        l.length = (w.projects m.collection).length ∧
        List.Forall₂ ProjectEntry (w.projects m.collection) l) := by
  constructor
  · refine ⟨w.gallery.map Gallery.formatItem, ?_, by simp, ?_⟩
    · simp [Gallery.getAllItems, GalleryModel.find, hup]
    · rw [List.forall₂_map_right_iff, List.forall₂_same]
      intro item _
      refine ⟨rfl, rfl, rfl, rfl, rfl, ?_⟩
      rw [Gallery.formatItem_image]
      exact rendersSlot_formatPhoto item.image
  · intro req m hm
    refine ⟨(w.projects m.collection).map Project.formatItem, ?_, by simp, ?_⟩
    · simp [Project.getAllItems, ProjectModel.find, hup, hm]
    · rw [List.forall₂_map_right_iff, List.forall₂_same]
      intro item _
      exact ⟨rfl, rfl, rfl, rfl, rfl, rfl, rfl, rfl, rfl, rfl, rfl,
        rendersSlot_formatPhoto item.beforePhoto, rendersSlot_formatPhoto item.afterPhoto⟩

/-- Claim C7 on the sample world and the tab `cesp`. -/
theorem listing_renders_every_record_witness :
    world.dbUp = true ∧
    (∃ l, (Gallery.getAllItems world).2 = ⟨200, Body.galleryList l⟩ ∧
      l.length = world.gallery.length ∧ List.Forall₂ GalleryEntry world.gallery l) ∧
    (∃ l, (Project.getAllItems world ⟨"cesp", 0, noFields, none⟩).2 =
        ⟨200, Body.projectList l⟩ ∧
      l.length = (world.projects CESP.collection).length ∧
      List.Forall₂ ProjectEntry (world.projects CESP.collection) l) :=
  ⟨rfl, (listing_renders_every_record world rfl).1,
    (listing_renders_every_record world rfl).2 ⟨"cesp", 0, noFields, none⟩ CESP (by decide)⟩

/-- Claim C8 (coordinate bounds enforced on every project write), evaluated
where it fails: project `updateItem` with `lat = 95` answers 200 and the
stored record then has `lat = 95`, while project `createItem` with the same
latitude answers 400 and leaves the collection unchanged. -/
theorem project_updateItem_stores_out_of_range_lat :
    (Project.updateItem world
      ⟨"cesp", 1, { noFields with lat := some 95 }, some ⟨none, none⟩⟩).2.status = 200 ∧
    ((Project.updateItem world
      ⟨"cesp", 1, { noFields with lat := some 95 }, some ⟨none, none⟩⟩).1.projects "CESP").map
        (fun d => d.lat) = [some 95] ∧
    ¬ ((95 : Int) ≤ 90) ∧
    (Project.createItem world
      ⟨"cesp", 0, { validFields with lat := some 95 }, some ⟨none, none⟩⟩).2.status = 400 ∧
    (Project.createItem world
      ⟨"cesp", 0, { validFields with lat := some 95 }, some ⟨none, none⟩⟩).1.projects "CESP"
        = world.projects "CESP" := by
  decide

/-- Claim C9 (`fileFilter` accepts exactly the listed extensions and MIME
types), evaluated where it fails: the file `notes.pngx` declared as
`text/x-png-notes` is accepted although neither its extension nor its MIME type
is in the list. -/
theorem fileFilter_accepts_unlisted_type :
    UploadConfig.fileFilter ⟨"notes.pngx", "text/x-png-notes"⟩ = UploadConfig.FilterResult.accept ∧
    UploadConfig.toLowerCase (UploadConfig.extname "notes.pngx") ∉
      [".jpeg", ".jpg", ".png", ".gif"] ∧
    "text/x-png-notes" ∉ ["image/jpeg", "image/jpg", "image/png", "image/gif"] := by
  decide

/-- Claim C10: gallery `createItem` without an uploaded file answers 400 with
`Image is required!` and returns the world it was given: nothing is transcoded
and nothing is inserted, whatever the title and description. -/
theorem gallery_createItem_requires_file (w : World) (req : Gallery.Request)
    (h : req.file = none) :
    (Gallery.createItem w req).2 = ⟨400, Body.message "Image is required!"⟩ ∧
    (Gallery.createItem w req).1 = w := by
  simp [Gallery.createItem, h]

/-- Claim C10 on the sample world with a title and a description. -/
theorem gallery_createItem_requires_file_witness :
    (Gallery.createItem world ⟨0, some "A", some "B", none⟩).2 =
      ⟨400, Body.message "Image is required!"⟩ ∧
    (Gallery.createItem world ⟨0, some "A", some "B", none⟩).1 = world :=
  gallery_createItem_requires_file world ⟨0, some "A", some "B", none⟩ rfl

theorem orElse_some (s : String) (b : Option String) (h : s ≠ "") :
    orElse (some s) b = some s := by
  simp [orElse, truthy, h]

theorem orElse_none (b : Option String) : orElse none b = b := by
  simp [orElse, truthy]

theorem orElse_empty (b : Option String) : orElse (some "") b = b := by
  simp [orElse, truthy]

theorem unlinkSync_frame (w w1 : World) (p : String) (h : unlinkSync w p = some w1) :
    w1.gallery = w.gallery ∧ w1.dbUp = w.dbUp ∧ w1.now = w.now := by
  unfold unlinkSync at h
  split at h
  · cases h; exact ⟨rfl, rfl, rfl⟩
  · cases h

theorem Gallery.cleanUpFile_frame (w : World) (p : String) :
    (Gallery.cleanUpFile w p).gallery = w.gallery ∧ (Gallery.cleanUpFile w p).dbUp = w.dbUp ∧
    (Gallery.cleanUpFile w p).now = w.now := by
  unfold Gallery.cleanUpFile
  split
  · cases hu : unlinkSync w p with
    | none => exact ⟨rfl, rfl, rfl⟩
    | some w1 => exact unlinkSync_frame w w1 p hu
  · exact ⟨rfl, rfl, rfl⟩

theorem Gallery.saveAndRespond_lookup (w : World) (it old : GalleryDoc) (id : Nat)
    (hup : w.dbUp = true) (hid : it.id = id)
    (hold : w.gallery.find? (fun d => d.id == id) = some old) :
    (GalleryModel.validate it = true ∧ (Gallery.saveAndRespond w it).2.status = 200 ∧
      ∃ d, (Gallery.saveAndRespond w it).1.gallery.find? (fun d => d.id == id) = some d ∧
        d.title = it.title ∧ d.description = it.description) ∨
    (¬ GalleryModel.validate it = true ∧ (Gallery.saveAndRespond w it).2.status = 500 ∧
      (Gallery.saveAndRespond w it).1.gallery = w.gallery) := by
  subst hid
  by_cases hv : GalleryModel.validate it = true
  · left
    refine ⟨hv, ?_⟩
    unfold Gallery.saveAndRespond GalleryModel.save
    by_cases hsame : w.gallery.find? (fun x => x.id == it.id) = some it
    · simp only [hv, hsame, if_true]
      exact ⟨trivial, it, rfl, rfl, rfl⟩
    · simp only [hv, hsame, hup, if_true, if_false]
      refine ⟨trivial, { it with updatedAt := w.now }, ?_, rfl, rfl⟩
      apply find?_map_replace (fun d : GalleryDoc => d.id)
      · rfl
      · simp [hold]
  · right
    refine ⟨hv, ?_⟩
    unfold Gallery.saveAndRespond GalleryModel.save
    simp only [hv]
    exact ⟨rfl, rfl⟩

theorem Gallery.updateItem_reduce (w : World) (req : Gallery.Request) (item : GalleryDoc)
    (hup : w.dbUp = true)
    (hitem : w.gallery.find? (fun d => d.id == req.id) = some item) :
    ∃ w1 img, w1.gallery = w.gallery ∧ w1.dbUp = true ∧
      Gallery.updateItem w req = Gallery.saveAndRespond w1
        { item with
          title := trimOpt (orElse req.title item.title),
          description := trimOpt (orElse req.description item.description),
          image := img } := by
  unfold Gallery.updateItem GalleryModel.findById
  simp only [hup, if_true, hitem]
  cases hf : req.file with
  | none =>
    exact ⟨w.emit (Effect.findById GalleryModel.collection req.id), item.image, rfl, hup, rfl⟩
  | some path =>
    simp only [compressImage_fst]
    cases hc : (compressImage (w.emit (Effect.findById GalleryModel.collection req.id)) path).2 with
    | none =>
      exact ⟨(w.emit (Effect.findById GalleryModel.collection req.id)).emit
        (Effect.transcode path), item.image, rfl, hup, rfl⟩
    | some image =>
      have hfr := Gallery.cleanUpFile_frame
        ((w.emit (Effect.findById GalleryModel.collection req.id)).emit (Effect.transcode path))
        path
      exact ⟨Gallery.cleanUpFile ((w.emit (Effect.findById GalleryModel.collection req.id)).emit
        (Effect.transcode path)) path, some image, hfr.1, hfr.2.1.trans hup, rfl⟩

theorem Gallery.updateItem_down (w : World) (req : Gallery.Request) (hup : w.dbUp = false) :
    (Gallery.updateItem w req).2.status = 500 ∧ (Gallery.updateItem w req).1.gallery = w.gallery := by
  unfold Gallery.updateItem GalleryModel.findById
  simp [hup, World.emit]

/-- Claim C11 as amended: in gallery `updateItem` on an existing item, when the
store answers and the resulting title (the request's when it is a non-empty
string, else the stored one) is not empty after trimming, the handler answers
200, a non-empty `title` or `description` of the request is stored with its
surrounding whitespace removed (schema `trim: true`), and an omitted or empty
one keeps the previous value, passed again through the trim setter.  Otherwise
the handler answers 500 and both stored fields keep their previous values. -/
theorem gallery_updateItem_text_fields (w : World) (req : Gallery.Request) (item : GalleryDoc)
    (hitem : w.gallery.find? (fun d => d.id == req.id) = some item) :
    ∃ d, (Gallery.updateItem w req).1.gallery.find? (fun d => d.id == req.id) = some d ∧
      ((w.dbUp = true ∧ requiredString (trimOpt (orElse req.title item.title)) = true) →
        (Gallery.updateItem w req).2.status = 200 ∧
        (∀ s, req.title = some s → s ≠ "" → d.title = some (trim s)) ∧
        (req.title = none ∨ req.title = some "" → d.title = trimOpt item.title) ∧
        (∀ s, req.description = some s → s ≠ "" → d.description = some (trim s)) ∧
        (req.description = none ∨ req.description = some "" →
          d.description = trimOpt item.description)) ∧
      (¬ (w.dbUp = true ∧ requiredString (trimOpt (orElse req.title item.title)) = true) →
        (Gallery.updateItem w req).2.status = 500 ∧
        d.title = item.title ∧ d.description = item.description) := by
  have hid : item.id = req.id := by
    have := List.find?_some hitem
    simpa using this
  cases hup : w.dbUp with
  | false =>
    obtain ⟨hs, hg⟩ := Gallery.updateItem_down w req hup
    refine ⟨item, by rw [hg]; exact hitem, ?_, fun _ => ⟨hs, rfl, rfl⟩⟩
    intro h; exact absurd h.1 (by decide)
  | true =>
    obtain ⟨w1, img, hg1, hup1, heq⟩ := Gallery.updateItem_reduce w req item hup hitem
    rw [heq]
    rcases Gallery.saveAndRespond_lookup w1
      { item with
        title := trimOpt (orElse req.title item.title),
        description := trimOpt (orElse req.description item.description),
        image := img } item req.id hup1 hid (by rw [hg1]; exact hitem)
      with ⟨hv, hs, d, hd, ht, hdesc⟩ | ⟨hn, hs, hg⟩
    · refine ⟨d, hd, ?_, ?_⟩
      · intro _
        refine ⟨hs, ?_, ?_, ?_, ?_⟩
        · intro s h1 h2
          rw [ht]
          show trimOpt (orElse req.title item.title) = some (trim s)
          rw [h1, orElse_some s _ h2]; rfl
        · intro h
          rw [ht]
          show trimOpt (orElse req.title item.title) = trimOpt item.title
          rcases h with h | h
          · rw [h, orElse_none]
          · rw [h, orElse_empty]
        · intro s h1 h2
          rw [hdesc]
          show trimOpt (orElse req.description item.description) = some (trim s)
          rw [h1, orElse_some s _ h2]; rfl
        · intro h
          rw [hdesc]
          show trimOpt (orElse req.description item.description) = trimOpt item.description
          rcases h with h | h
          · rw [h, orElse_none]
          · rw [h, orElse_empty]
      · intro h; exact absurd ⟨rfl, hv⟩ h
    · refine ⟨item, by rw [hg, hg1]; exact hitem, ?_, fun _ => ⟨hs, rfl, rfl⟩⟩
      intro h; exact absurd h.2 hn

/-- Claim C11 on the sample world: the title is omitted and kept, the
description is supplied with surrounding blanks and stored trimmed, and the
handler answers 200. -/
theorem gallery_updateItem_text_fields_witness :
    (Gallery.updateItem world ⟨1, none, some " New text ", none⟩).2.status = 200 ∧
    ∃ d, (Gallery.updateItem world ⟨1, none, some " New text ", none⟩).1.gallery.find?
        (fun d => d.id == 1) = some d ∧
      d.title = some "Old" ∧ d.description = some "New text" := by
  obtain ⟨d, hd, hok, _⟩ := gallery_updateItem_text_fields world
    ⟨1, none, some " New text ", none⟩ galleryItem (by decide)
  obtain ⟨hs, _, ht, hdesc, _⟩ := hok (by decide)
  refine ⟨hs, d, hd, ?_, ?_⟩
  · rw [ht (Or.inl rfl)]; decide
  · rw [hdesc " New text " rfl (by decide)]; decide

/-- Claim C11 as first stated fails: the supplied non-empty title ` New ` is
stored as `New`, not as supplied; the supplied non-empty title of two blanks,
and likewise of one no-break space, is refused by the `required` validator, so
the handler answers 500 and the stored title stays `Old`. -/
theorem gallery_updateItem_stores_trimmed_text :
    ((Gallery.updateItem world ⟨1, some " New ", none, none⟩).2.status = 200 ∧
      (Gallery.updateItem world ⟨1, some " New ", none, none⟩).1.gallery.map
        (fun d => d.title) = [some "New"] ∧
      (some "New" : Option String) ≠ some " New ") ∧
    ((Gallery.updateItem world ⟨1, some "  ", none, none⟩).2.status = 500 ∧
      (Gallery.updateItem world ⟨1, some "  ", none, none⟩).1.gallery.map
        (fun d => d.title) = [some "Old"]) ∧
    ((Gallery.updateItem world ⟨1, some (String.mk [Char.ofNat 160]), none, none⟩).2.status
        = 500 ∧
      (Gallery.updateItem world ⟨1, some (String.mk [Char.ofNat 160]), none, none⟩).1.gallery.map
        (fun d => d.title) = [some "Old"]) := by
  decide

end Claims

end WVL
